import Mathlib

/-!
Shallow embedding of the `atm-cli` transaction engine and authentication
component (src/atm.js, src/session/session.js).

Numbers: JavaScript `Number` values reaching the engine are NaN, ±Infinity,
or finite; finite values are modelled exactly as rationals (MySQL DECIMAL
arithmetic on the balances is exact decimal arithmetic; the engine claims
are about those decimal values).

The database is modelled as in-memory lists; each `db.execute` statement of
the source becomes one list operation, in the source's order.
-/

namespace Atm

attribute [local semireducible] Rat.add Rat.sub

/-- A JavaScript number as it reaches the engine: NaN, +Infinity, -Infinity,
or a finite value (modelled exactly as a rational). -/
inductive JSNum where
  | nan : JSNum
  | inf : JSNum
  | ninf : JSNum
  | fin (q : ℚ) : JSNum
deriving DecidableEq, Repr

namespace JSNum

/-- JavaScript `isNaN(x)` for a numeric `x`. -/
def isNaNb : JSNum → Bool
  | nan => true
  | _ => false

/-- JavaScript `x <= 0`: false whenever `x` is NaN. -/
def leZerob : JSNum → Bool
  | nan => false
  | inf => false
  | ninf => true
  | fin q => decide (q ≤ 0)

/-- JavaScript `x > y`: false whenever either side is NaN. -/
def gtb : JSNum → JSNum → Bool
  | nan, _ => false
  | _, nan => false
  | inf, inf => false
  | inf, _ => true
  | _, inf => false
  | ninf, ninf => false
  | ninf, _ => false
  | _, ninf => true
  | fin a, fin b => decide (b < a)

/-- JavaScript addition on numbers (NaN propagates; Infinity + -Infinity = NaN). -/
def add : JSNum → JSNum → JSNum
  | nan, _ => nan
  | _, nan => nan
  | inf, ninf => nan
  | ninf, inf => nan
  | inf, _ => inf
  | _, inf => inf
  | ninf, _ => ninf
  | _, ninf => ninf
  | fin a, fin b => fin (a + b)

/-- JavaScript subtraction on numbers (NaN propagates; Infinity - Infinity = NaN). -/
def sub : JSNum → JSNum → JSNum
  | nan, _ => nan
  | _, nan => nan
  | inf, inf => nan
  | ninf, ninf => nan
  | inf, _ => inf
  | _, inf => ninf
  | ninf, _ => ninf
  | _, ninf => inf
  | fin a, fin b => fin (a - b)

/-- `x < 0` in the usual extended sense: NaN and +Infinity are not negative. -/
def isNegativeb : JSNum → Bool
  | nan => false
  | inf => false
  | ninf => true
  | fin q => decide (q < 0)

end JSNum

/-- A row of the `accounts` table (src/atm.js stores the PIN hash in column
`pin`; `balance` is the DECIMAL column). -/
structure Account where
  id : Nat
  name : String
  pin : String
  balance : JSNum
deriving DecidableEq, Repr

/-- The `type` ENUM of the `transactions` table. -/
inductive TxType where
  | deposit
  | withdraw
  | transfer_out
  | transfer_in
deriving DecidableEq, Repr

/-- A row of the `transactions` table (`created_at` is store-assigned and not
relevant to any claim, so it is omitted). -/
structure TxRow where
  id : Nat
  account_id : Nat
  type : TxType
  amount : JSNum
  target_id : Option Nat
deriving DecidableEq, Repr

/-- The relational store: the two tables plus the auto-increment counter that
assigns `transactions.id`. -/
structure DB where
  accounts : List Account
  transactions : List TxRow
  nextTxId : Nat
deriving DecidableEq, Repr

/-- `SELECT ... FROM accounts WHERE id = ?` (result row list, in table order). -/
def selectAccountsById (db : DB) (i : Nat) : List Account :=
  db.accounts.filter (fun a => a.id == i)

/-- `SELECT ... FROM accounts WHERE name = ?` (result row list, in table order). -/
def selectAccountsByName (db : DB) (n : String) : List Account :=
  db.accounts.filter (fun a => a.name == n)

/-- `UPDATE accounts SET balance = ? WHERE id = ?`. -/
def updateBalanceWhereId (db : DB) (i : Nat) (b : JSNum) : DB :=
  { db with accounts := db.accounts.map (fun a => if a.id == i then { a with balance := b } else a) }

/-- `UPDATE accounts SET balance = ? WHERE name = ?` (used only by the
withdraw action in the source). -/
def updateBalanceWhereName (db : DB) (n : String) (b : JSNum) : DB :=
  { db with accounts := db.accounts.map (fun a => if a.name == n then { a with balance := b } else a) }

/-- `INSERT INTO transactions (account_id, type, amount[, target_id]) VALUES ...`;
returns the new store and the `insertId`. -/
def insertTransaction (db : DB) (acct : Nat) (ty : TxType) (amt : JSNum) (tgt : Option Nat) :
    DB × Nat :=
  ({ db with
      transactions := db.transactions ++ [⟨db.nextTxId, acct, ty, amt, tgt⟩]
      nextTxId := db.nextTxId + 1 },
    db.nextTxId)

/-- Balance of the first `accounts` row with the given id, if any. -/
def balanceOf (db : DB) (i : Nat) : Option JSNum :=
  (selectAccountsById db i).head?.map (fun a => a.balance)

/-- The identity persisted by `saveSession` / read by `getSession`
(src/session/session.js). -/
structure Session where
  id : Nat
  name : String
deriving DecidableEq, Repr

/-- The distinguishable outcomes of the engine actions. `destructureTypeError`
is the TypeError JavaScript raises when `accounts[0]` is `undefined` and the
action destructures it (`const { id, ... } = accounts[0]`); it is a runtime
artifact, not an engine-defined error kind. -/
inductive AtmError where
  | notLoggedIn
  | invalidAmount
  | destructureTypeError
  | notEnoughBalance
  | targetNotFound
deriving DecidableEq, Repr

/-- The amount-format gate shared by deposit, withdraw and transfer:
`if (isNaN(amountNum) || amountNum <= 0) throw ...`. An amount passes iff it
is neither NaN nor `<= 0`; note +Infinity passes. -/
def validAmount (a : JSNum) : Bool :=
  !(a.isNaNb || a.leZerob)

/-- The `deposit <amount>` action (src/atm.js lines 188-257): session check,
amount-format check, read the session account (`accounts[0]` destructure),
write the new balance `WHERE id = ?`, insert one `deposit` transaction row.
The inserted `amount` is the argument string, which the DECIMAL column coerces
to the same numeric value as `amountNum`. -/
def deposit (db : DB) (session : Option Session) (amount : JSNum) : Except AtmError DB :=
  match session with
  | none => .error .notLoggedIn
  | some s =>
    if !(validAmount amount) then .error .invalidAmount
    else
      match selectAccountsById db s.id with
      | [] => .error .destructureTypeError
      | acct :: _ =>
        let newBalance := acct.balance.add amount
        let db1 := updateBalanceWhereId db s.id newBalance
        let (db2, _) := insertTransaction db1 acct.id .deposit amount none
        .ok db2

/-- The `withdraw <amount>` action (src/atm.js lines 260-335): session check,
amount-format check, read the session account by id, insufficient-funds check
(`amountNum > Number(balance)`), write the new balance `WHERE name = ?` (note:
by name, not id), insert one `withdraw` transaction row. -/
def withdraw (db : DB) (session : Option Session) (amount : JSNum) : Except AtmError DB :=
  match session with
  | none => .error .notLoggedIn
  | some s =>
    if !(validAmount amount) then .error .invalidAmount
    else
      match selectAccountsById db s.id with
      | [] => .error .destructureTypeError
      | acct :: _ =>
        if amount.gtb acct.balance then .error .notEnoughBalance
        else
          let newBalance := acct.balance.sub amount
          let db1 := updateBalanceWhereName db acct.name newBalance
          let (db2, _) := insertTransaction db1 acct.id .withdraw amount none
          .ok db2

/-- The `transfer <amount> -t <target>` action (src/atm.js lines 338-463):
session check, amount-format check, read the target account (explicit
`length < 1` check), read the session account (`accounts[0]` destructure),
insufficient-funds check against the sender's balance, then four sequential
writes: sender balance `WHERE id`, `transfer_out` row, receiver balance
`WHERE id`, `transfer_in` row. Both new balances are computed from the two
reads made before any write. -/
def transfer (db : DB) (session : Option Session) (amount : JSNum) (targetId : Nat) :
    Except AtmError DB :=
  match session with
  | none => .error .notLoggedIn
  | some s =>
    if !(validAmount amount) then .error .invalidAmount
    else
      match selectAccountsById db targetId with
      | [] => .error .targetNotFound
      | target :: _ =>
        match selectAccountsById db s.id with
        | [] => .error .destructureTypeError
        | sender :: _ =>
          if amount.gtb sender.balance then .error .notEnoughBalance
          else
            let newSenderBalance := sender.balance.sub amount
            let newReceiverBalance := target.balance.add amount
            let db1 := updateBalanceWhereId db sender.id newSenderBalance
            let (db2, _) := insertTransaction db1 sender.id .transfer_out amount (some target.id)
            let db3 := updateBalanceWhereId db2 target.id newReceiverBalance
            let (db4, _) := insertTransaction db3 target.id .transfer_in amount (some sender.id)
            .ok db4

/-- The `check-balance` action (src/atm.js lines 158-185): session check, read
the session account, destructure `accounts[0]`, output id/name/balance. -/
def checkBalance (db : DB) (session : Option Session) : Except AtmError (Nat × String × JSNum) :=
  match session with
  | none => .error .notLoggedIn
  | some s =>
    match selectAccountsById db s.id with
    | [] => .error .destructureTypeError
    | acct :: _ => .ok (acct.id, acct.name, acct.balance)

/-- A JavaScript Promise object holding the value it will eventually resolve
to. `bcrypt.compare(pin, hash)` returns one of these. -/
structure JSPromise (α : Type) where
  val : α
deriving DecidableEq, Repr

/-- JavaScript truthiness of a Promise object: every object is truthy, so
`!promise` is `false` regardless of the value the promise resolves to. -/
def JSPromise.truthy {α : Type} (_ : JSPromise α) : Bool :=
  true

/-- Outcome of one `login` invocation. `lockedOut` is the early return on
`failedLoginAttempts >= 3`; `invalidCredentials` is the thrown
`Invalid name or PIN`; `success` carries the destructured id/name/balance
(the `{id, name}` pair is what `saveSession` persists). -/
inductive LoginResult where
  | lockedOut
  | invalidCredentials
  | success (id : Nat) (name : String) (balance : JSNum)
deriving DecidableEq, Repr

/-- The `login -n <name> -p` action (src/atm.js lines 88-155), parameterised
by the PIN verifier `verify` (the bcrypt comparison the awaited
`bcrypt.compare` would compute). State is the module-level
`failedLoginAttempts` counter. Exactly as in the source, the lockout check
precedes any store access; a failed name lookup increments the counter; then
`const match = bcrypt.compare(pin, accounts[0].pin)` is NOT awaited, so
`match` is the Promise object itself and `if (!match)` tests the truthiness
of that object, not the comparison result. -/
def login (verify : String → String → Bool) (fails : Nat) (db : DB)
    (name pin : String) : Nat × LoginResult :=
  if 3 ≤ fails then (fails, .lockedOut)
  else
    match selectAccountsByName db name with
    | [] => (fails + 1, .invalidCredentials)
    | acct :: _ =>
      let matchPromise : JSPromise Bool := ⟨verify pin acct.pin⟩
      if !matchPromise.truthy then (fails + 1, .invalidCredentials)
      else (0, .success acct.id acct.name acct.balance)

/-- A sequence of login attempts within one process: the counter threads
through, the store and credentials may differ per attempt. Returns the final
counter and the per-attempt results in order. -/
def runLogins (verify : String → String → Bool) (fails : Nat) :
    List (DB × String × String) → Nat × List LoginResult
  | [] => (fails, [])
  | (db, n, p) :: rest =>
    let step := login verify fails db n p
    let tail := runLogins verify step.1 rest
    (tail.1, step.2 :: tail.2)

/-- One engine operation together with the session it runs under. -/
inductive Op where
  | dep (s : Option Session) (a : JSNum)
  | wd (s : Option Session) (a : JSNum)
  | tf (s : Option Session) (a : JSNum) (target : Nat)
deriving DecidableEq, Repr

/-- Observable store state after one operation: a thrown validation error
leaves the store as it was (every check precedes every write in the source). -/
def applyOp (db : DB) : Op → DB
  | .dep s a =>
    match deposit db s a with
    | .ok db' => db'
    | .error _ => db
  | .wd s a =>
    match withdraw db s a with
    | .ok db' => db'
    | .error _ => db
  | .tf s a t =>
    match transfer db s a t with
    | .ok db' => db'
    | .error _ => db

/-- Run a sequence of engine operations against the store. -/
def runOps (db : DB) (ops : List Op) : DB :=
  ops.foldl applyOp db

/-- Observable store state when the store fails during the transfer's write
sequence. The source wraps the four writes in no transaction: each
`db.execute` is an independent auto-committed statement, so a failure at
write number `k` (0-based; 0 = sender balance update, 1 = transfer_out
insert, 2 = receiver balance update, 3 = transfer_in insert) leaves writes
`0..k-1` committed and nothing rolled back. Returns `none` when a validation
check fails before any write is attempted. -/
def transferStateAtFailure (db : DB) (session : Option Session) (amount : JSNum)
    (targetId : Nat) (k : Nat) : Option DB :=
  match session with
  | none => none
  | some s =>
    if !(validAmount amount) then none
    else
      match selectAccountsById db targetId with
      | [] => none
      | target :: _ =>
        match selectAccountsById db s.id with
        | [] => none
        | sender :: _ =>
          if amount.gtb sender.balance then none
          else
            let writes : List (DB → DB) :=
              [ fun d => updateBalanceWhereId d sender.id (sender.balance.sub amount),
                fun d => (insertTransaction d sender.id .transfer_out amount (some target.id)).1,
                fun d => updateBalanceWhereId d target.id (target.balance.add amount),
                fun d => (insertTransaction d target.id .transfer_in amount (some sender.id)).1 ]
            some ((writes.take k).foldl (fun d f => f d) db)

/-- All balances in the store are non-negative (no balance is NaN, -Infinity,
or a negative decimal). -/
def dbAllNotNeg (db : DB) : Bool :=
  db.accounts.all (fun a => !a.balance.isNegativeb)

instance {ε α : Type} [DecidableEq ε] [DecidableEq α] : DecidableEq (Except ε α) := fun a b =>
  match a, b with
  | .ok x, .ok y =>
    if h : x = y then isTrue (by rw [h]) else isFalse (fun he => by cases he; exact h rfl)
  | .error x, .error y =>
    if h : x = y then isTrue (by rw [h]) else isFalse (fun he => by cases he; exact h rfl)
  | .ok _, .error _ => isFalse (fun he => by cases he)
  | .error _, .ok _ => isFalse (fun he => by cases he)

/-! Concrete data used to exercise the model: a bcrypt verifier under which
the stored hash `hash1` matches exactly the PIN `123456`, a store with two
accounts, and a store with two accounts that share a name. -/

/-- A concrete PIN verifier: `hash1` is the stored bcrypt hash of the PIN
`123456` and `hash2` matches nothing. -/
def exVerify (pin stored : String) : Bool :=
  pin == "123456" && stored == "hash1"

/-- A two-account store: alice (id 1, balance 100) and bob (id 2, balance 50). -/
def exDb : DB :=
  ⟨[⟨1, "alice", "hash1", .fin 100⟩, ⟨2, "bob", "hash2", .fin 50⟩], [], 1⟩

/-- The session persisted for alice. -/
def aliceSession : Session := ⟨1, "alice"⟩

/-- A stale session whose account id 7 matches no account of `exDb`. -/
def ghostSession : Session := ⟨7, "ghost"⟩

/-- A store with two distinct accounts that share the name "john"
(uniqueness of `name` is not structurally enforced). -/
def exDbDup : DB :=
  ⟨[⟨1, "john", "hash1", .fin 100⟩, ⟨2, "john", "hash2", .fin 50⟩], [], 1⟩

/-- The session persisted for the first "john" (account id 1). -/
def johnSession : Session := ⟨1, "john"⟩

/-- `exDb` after a self-transfer of 30 by alice (target id 1 = her own id):
her balance ends at 130, and a transfer_out/transfer_in pair both reference
account 1. -/
def exDbSelfTransfer : DB :=
  ⟨[⟨1, "alice", "hash1", .fin 130⟩, ⟨2, "bob", "hash2", .fin 50⟩],
    [⟨1, 1, .transfer_out, .fin 30, some 1⟩, ⟨2, 1, .transfer_in, .fin 30, some 1⟩], 3⟩

/-- `exDb` as observed when the store fails at the third statement of
alice's transfer of 30 to bob: alice debited to 70, the transfer_out row
committed, bob still at 50 and no transfer_in row. -/
def exDbPartialTransfer : DB :=
  ⟨[⟨1, "alice", "hash1", .fin 70⟩, ⟨2, "bob", "hash2", .fin 50⟩],
    [⟨1, 1, .transfer_out, .fin 30, some 2⟩], 2⟩

/-- `exDb` after alice deposits Infinity: her balance is Infinity and a
deposit row of amount Infinity was inserted. -/
def exDbInfDeposit : DB :=
  ⟨[⟨1, "alice", "hash1", .inf⟩, ⟨2, "bob", "hash2", .fin 50⟩],
    [⟨1, 1, .deposit, .inf, none⟩], 2⟩

/-- `exDbDup` after the first john withdraws 40: the `WHERE name = ?` update
sets BOTH same-named accounts' balances to 60. -/
def exDbDupAfter : DB :=
  ⟨[⟨1, "john", "hash1", .fin 60⟩, ⟨2, "john", "hash2", .fin 60⟩],
    [⟨1, 1, .withdraw, .fin 40, none⟩], 2⟩

/-- `exDb` after alice transfers 30 to bob: alice 70, bob 80, and a matched
transfer_out/transfer_in pair. -/
def exDbTransfer : DB :=
  ⟨[⟨1, "alice", "hash1", .fin 70⟩, ⟨2, "bob", "hash2", .fin 80⟩],
    [⟨1, 1, .transfer_out, .fin 30, some 2⟩, ⟨2, 2, .transfer_in, .fin 30, some 1⟩], 3⟩

/-- `exDb` after alice deposits 5: balance 105 and one deposit row. -/
def exDbDep : DB :=
  ⟨[⟨1, "alice", "hash1", .fin 105⟩, ⟨2, "bob", "hash2", .fin 50⟩],
    [⟨1, 1, .deposit, .fin 5, none⟩], 2⟩

/-- A sample operation sequence for alice against `exDb`. -/
def exOps : List Op :=
  [.dep (some aliceSession) (.fin 5), .wd (some aliceSession) (.fin 30),
    .tf (some aliceSession) (.fin 20) 2]

/-! ## Theorems -/

/-- C1: the login action does not await `bcrypt.compare`, so `match` is the
Promise object itself, `if (!match)` never fires, and a login with an
existing name SUCCEEDS even when the supplied PIN does not verify against
the stored hash: under the verifier `exVerify`, the PIN `999999` does not
verify against alice's stored hash, yet `login` returns success (resetting
the failure counter to 0) instead of failing with InvalidCredentials and
incrementing the counter. -/
theorem login_wrong_pin_succeeds :
    exVerify "999999" "hash1" = false ∧
    login exVerify 0 exDb "alice" "999999" = (0, .success 1 "alice" (.fin 100)) := by
  exact ⟨rfl, rfl⟩

/-- C2: the multi-write sequences run with no transactional wrapper, so a
store failure mid-sequence rolls nothing back: if the store fails at the
third statement of alice's transfer of 30 to bob (the receiver balance
update), the observable state has alice debited to 70 with the transfer_out
row committed while bob is still at 50 with no transfer_in row — a partial
state different from the pre-operation state, contradicting the claimed
atomicity. -/
theorem transfer_store_failure_partial_state :
    transferStateAtFailure exDb (some aliceSession) (.fin 30) 2 2 = some exDbPartialTransfer ∧
    exDbPartialTransfer ≠ exDb ∧
    balanceOf exDb 1 = some (.fin 100) ∧
    balanceOf exDbPartialTransfer 1 = some (.fin 70) ∧
    balanceOf exDbPartialTransfer 2 = some (.fin 50) ∧
    exDbPartialTransfer.transactions = [⟨1, 1, .transfer_out, .fin 30, some 2⟩] := by
  refine ⟨rfl, ?_, rfl, rfl, rfl, rfl⟩
  decide

/-- C9: when the session's account id no longer exists in the store, every
engine operation destructures the empty query result (`accounts[0]` is
`undefined`), raising a TypeError — a generic runtime error, not the
distinguishable AccountNotFound the claim requires (no write occurs, so
that part of the claim holds): with the stale session on id 7 against
`exDb`, check-balance, deposit, withdraw and transfer all end in the
destructuring TypeError and leave the store unchanged. -/
theorem missing_account_destructure :
    checkBalance exDb (some ghostSession) = .error .destructureTypeError ∧
    deposit exDb (some ghostSession) (.fin 5) = .error .destructureTypeError ∧
    withdraw exDb (some ghostSession) (.fin 5) = .error .destructureTypeError ∧
    transfer exDb (some ghostSession) (.fin 5) 1 = .error .destructureTypeError ∧
    applyOp exDb (.dep (some ghostSession) (.fin 5)) = exDb ∧
    applyOp exDb (.wd (some ghostSession) (.fin 5)) = exDb ∧
    applyOp exDb (.tf (some ghostSession) (.fin 5) 1) = exDb := by
  exact ⟨rfl, rfl, rfl, rfl, rfl, rfl, rfl⟩

/-- C10: the withdraw action updates the balance `WHERE name = ?`, so when
two distinct accounts share a name, withdrawing from one OVERWRITES the
other's balance: in `exDbDup` (accounts 1 and 2 both named "john", balances
100 and 50), account 1 withdrawing 40 sets BOTH balances to 60 — account 2's
balance changes from 50 to 60, contradicting the claimed frame property. -/
theorem withdraw_overwrites_same_name :
    withdraw exDbDup (some johnSession) (.fin 40) = .ok exDbDupAfter ∧
    balanceOf exDbDup 2 = some (.fin 50) ∧
    balanceOf exDbDupAfter 2 = some (.fin 60) ∧
    JSNum.fin 60 ≠ JSNum.fin 50 := by
  refine ⟨rfl, rfl, rfl, ?_⟩
  decide

/-- C3 counterexample: a self-transfer passes validation and violates
conservation: alice (balance 100) transfers 30 to her own id; both balances
read 100 before any write, the sender write (100-30) is then overwritten by
the receiver write (100+30), so her balance ends at 130 and the summed
balance of sender and receiver rises from 100+100 to 130+130 — money is
created, contradicting the claim for the self-transfer case it includes. -/
theorem self_transfer_creates_money :
    transfer exDb (some aliceSession) (.fin 30) 1 = .ok exDbSelfTransfer ∧
    balanceOf exDb 1 = some (.fin 100) ∧
    balanceOf exDbSelfTransfer 1 = some (.fin 130) ∧
    (100 : ℚ) + 100 ≠ 130 + 130 := by
  refine ⟨rfl, rfl, rfl, ?_⟩
  decide

/-- C6 counterexample: the amount gate is `isNaN(amountNum) || amountNum <= 0`,
which +Infinity passes, so an infinite amount is NOT rejected with
InvalidAmount: alice's deposit of Infinity passes validation and proceeds to
the write sequence, leaving her balance Infinity and a deposit row of amount
Infinity — contradicting the claim that infinite values fail with
InvalidAmount with nothing written. -/
theorem infinite_amount_not_rejected :
    validAmount .inf = true ∧
    deposit exDb (some aliceSession) .inf = .ok exDbInfDeposit ∧
    deposit exDb (some aliceSession) .inf ≠ .error .invalidAmount ∧
    balanceOf exDbInfDeposit 1 = some .inf := by
  refine ⟨rfl, rfl, ?_, rfl⟩
  decide

/-- Inversion of a successful deposit: the amount passed validation, the
session's account query was non-empty, and the result is exactly the
balance update followed by the row insert. -/
theorem deposit_ok_inv (db db' : DB) (s : Session) (a : JSNum)
    (h : deposit db (some s) a = .ok db') :
    validAmount a = true ∧ ∃ acct rs, selectAccountsById db s.id = acct :: rs ∧
      db' = (insertTransaction (updateBalanceWhereId db s.id (acct.balance.add a))
        acct.id .deposit a none).1 := by
  unfold deposit at h
  cases hv : validAmount a with
  | false =>
    rw [hv] at h
    simp at h
  | true =>
    rw [hv] at h
    simp only [Bool.not_true, Bool.false_eq_true, if_false] at h
    split at h
    next heq =>
      simp at h
    next acct tail heq =>
      simp only [Except.ok.injEq] at h
      exact ⟨rfl, acct, tail, heq, h.symm⟩

/-- Inversion of a successful withdraw: validation passed, the account query
was non-empty, the insufficient-funds check passed, and the result is the
by-name balance update followed by the row insert. -/
theorem withdraw_ok_inv (db db' : DB) (s : Session) (a : JSNum)
    (h : withdraw db (some s) a = .ok db') :
    validAmount a = true ∧ ∃ acct rs, selectAccountsById db s.id = acct :: rs ∧
      a.gtb acct.balance = false ∧
      db' = (insertTransaction (updateBalanceWhereName db acct.name (acct.balance.sub a))
        acct.id .withdraw a none).1 := by
  unfold withdraw at h
  cases hv : validAmount a with
  | false =>
    rw [hv] at h
    simp at h
  | true =>
    rw [hv] at h
    simp only [Bool.not_true, Bool.false_eq_true, if_false] at h
    split at h
    next heq =>
      simp at h
    next acct tail heq =>
      split at h
      next hgt =>
        simp at h
      next hgt =>
        simp only [Except.ok.injEq] at h
        refine ⟨rfl, acct, tail, heq, ?_, h.symm⟩
        simpa using hgt

/-- Inversion of a successful transfer: validation passed, both account
queries were non-empty, the insufficient-funds check passed against the
sender's balance, and the result is exactly the four writes in source
order, each computed from the two reads made before any write. -/
theorem transfer_ok_inv (db db' : DB) (s : Session) (a : JSNum) (tid : Nat)
    (h : transfer db (some s) a tid = .ok db') :
    validAmount a = true ∧ ∃ target rt sender rs,
      selectAccountsById db tid = target :: rt ∧
      selectAccountsById db s.id = sender :: rs ∧
      a.gtb sender.balance = false ∧
      db' = (insertTransaction (updateBalanceWhereId
        (insertTransaction (updateBalanceWhereId db sender.id (sender.balance.sub a))
          sender.id .transfer_out a (some target.id)).1
        target.id (target.balance.add a)) target.id .transfer_in a (some sender.id)).1 := by
  unfold transfer at h
  cases hv : validAmount a with
  | false =>
    rw [hv] at h
    simp at h
  | true =>
    rw [hv] at h
    simp only [Bool.not_true, Bool.false_eq_true, if_false] at h
    split at h
    next heq =>
      simp at h
    next target rt heq =>
      split at h
      next heq2 =>
        simp at h
      next sender rs heq2 =>
        split at h
        next hgt =>
          simp at h
        next hgt =>
          simp only [Except.ok.injEq] at h
          refine ⟨rfl, target, rt, sender, rs, heq, heq2, ?_, h.symm⟩
          simpa using hgt

/-- C7: every successful deposit or withdraw appends exactly one transaction
row, of the matching type and amount, owned by the session's account and
with no target; every successful transfer appends exactly one transfer_out
row on the sender and then exactly one transfer_in row on the receiver,
both of the transferred amount, each carrying the counterparty's account id
as target_id. -/
theorem success_exact_logging (db db' : DB) (s : Session) (a : JSNum) (tid : Nat) :
    (deposit db (some s) a = .ok db' →
      ∃ acct r, (selectAccountsById db s.id).head? = some acct ∧
        db'.transactions = db.transactions ++ [r] ∧
        r.type = .deposit ∧ r.amount = a ∧ r.account_id = acct.id ∧ r.target_id = none) ∧
    (withdraw db (some s) a = .ok db' →
      ∃ acct r, (selectAccountsById db s.id).head? = some acct ∧
        db'.transactions = db.transactions ++ [r] ∧
        r.type = .withdraw ∧ r.amount = a ∧ r.account_id = acct.id ∧ r.target_id = none) ∧
    (transfer db (some s) a tid = .ok db' →
      ∃ sender target rOut rIn,
        (selectAccountsById db s.id).head? = some sender ∧
        (selectAccountsById db tid).head? = some target ∧
        db'.transactions = db.transactions ++ [rOut, rIn] ∧
        rOut.type = .transfer_out ∧ rOut.amount = a ∧
        rOut.account_id = sender.id ∧ rOut.target_id = some target.id ∧
        rIn.type = .transfer_in ∧ rIn.amount = a ∧
        rIn.account_id = target.id ∧ rIn.target_id = some sender.id) := by
  refine ⟨?_, ?_, ?_⟩
  · intro h
    obtain ⟨-, acct, rs, hsel, hdb⟩ := deposit_ok_inv db db' s a h
    refine ⟨acct, ⟨db.nextTxId, acct.id, .deposit, a, none⟩, ?_, ?_, rfl, rfl, rfl, rfl⟩
    · rw [hsel]; rfl
    · rw [hdb]; rfl
  · intro h
    obtain ⟨-, acct, rs, hsel, -, hdb⟩ := withdraw_ok_inv db db' s a h
    refine ⟨acct, ⟨db.nextTxId, acct.id, .withdraw, a, none⟩, ?_, ?_, rfl, rfl, rfl, rfl⟩
    · rw [hsel]; rfl
    · rw [hdb]; rfl
  · intro h
    obtain ⟨-, target, rt, sender, rs, htgt, hsel, -, hdb⟩ := transfer_ok_inv db db' s a tid h
    refine ⟨sender, target, ⟨db.nextTxId, sender.id, .transfer_out, a, some target.id⟩,
      ⟨db.nextTxId + 1, target.id, .transfer_in, a, some sender.id⟩,
      ?_, ?_, ?_, rfl, rfl, rfl, rfl, rfl, rfl, rfl, rfl⟩
    · rw [hsel]; rfl
    · rw [htgt]; rfl
    · rw [hdb]
      simp [insertTransaction, updateBalanceWhereId]

/-- C7 witness: alice's deposit of 5 against `exDb` appends exactly one
deposit row of amount 5 owned by her account. -/
theorem success_exact_logging_witness :
    ∃ acct r, (selectAccountsById exDb aliceSession.id).head? = some acct ∧
      exDbDep.transactions = exDb.transactions ++ [r] ∧
      r.type = .deposit ∧ r.amount = .fin 5 ∧ r.account_id = acct.id ∧ r.target_id = none :=
  (success_exact_logging exDb exDbDep aliceSession (.fin 5) 0).1 rfl

/-- C5: with an authenticated session whose account exists and a valid
amount strictly greater than that account's balance, withdraw fails with
the insufficient-funds error before any write, leaving the store (balances
and transaction log) unchanged; transfer fails the same way against the
sender's balance for any existing target. -/
theorem insufficient_funds_no_mutation (db : DB) (s : Session) (a : JSNum)
    (acct : Account) (rs : List Account)
    (hsel : selectAccountsById db s.id = acct :: rs)
    (hv : validAmount a = true)
    (hgt : a.gtb acct.balance = true) :
    withdraw db (some s) a = .error .notEnoughBalance ∧
    applyOp db (.wd (some s) a) = db ∧
    ∀ tid target rt, selectAccountsById db tid = target :: rt →
      transfer db (some s) a tid = .error .notEnoughBalance ∧
      applyOp db (.tf (some s) a tid) = db := by
  have hw : withdraw db (some s) a = .error .notEnoughBalance := by
    simp [withdraw, hsel, hv, hgt]
  refine ⟨hw, by simp [applyOp, hw], ?_⟩
  intro tid target rt htgt
  have ht : transfer db (some s) a tid = .error .notEnoughBalance := by
    simp [transfer, hsel, htgt, hv, hgt]
  exact ⟨ht, by simp [applyOp, ht]⟩

/-- C5 witness: alice (balance 100) withdrawing 150 is declined with the
insufficient-funds error and her store is unchanged; transferring 150 to
bob is declined the same way. -/
theorem insufficient_funds_no_mutation_witness :
    withdraw exDb (some aliceSession) (.fin 150) = .error .notEnoughBalance ∧
    applyOp exDb (.wd (some aliceSession) (.fin 150)) = exDb ∧
    transfer exDb (some aliceSession) (.fin 150) 2 = .error .notEnoughBalance ∧
    applyOp exDb (.tf (some aliceSession) (.fin 150) 2) = exDb := by
  obtain ⟨h1, h2, h3⟩ := insufficient_funds_no_mutation exDb aliceSession (.fin 150)
    ⟨1, "alice", "hash1", .fin 100⟩ [] rfl (by decide) (by decide)
  obtain ⟨h4, h5⟩ := h3 2 ⟨2, "bob", "hash2", .fin 50⟩ [] rfl
  exact ⟨h1, h2, h4, h5⟩

/-- C6 (amended): if the amount is NaN or `<= 0` under JavaScript comparison
(NaN, zero, or negative — but not ±Infinity, which the gate does not catch;
-Infinity is `<= 0` so only +Infinity slips through), deposit, withdraw and
transfer all fail with InvalidAmount and the store is unchanged. -/
theorem invalid_amount_rejected (db : DB) (s : Session) (a : JSNum) (tid : Nat)
    (h : a.isNaNb = true ∨ a.leZerob = true) :
    deposit db (some s) a = .error .invalidAmount ∧
    withdraw db (some s) a = .error .invalidAmount ∧
    transfer db (some s) a tid = .error .invalidAmount ∧
    applyOp db (.dep (some s) a) = db ∧
    applyOp db (.wd (some s) a) = db ∧
    applyOp db (.tf (some s) a tid) = db := by
  have hv : validAmount a = false := by
    unfold validAmount
    rcases h with h | h <;> simp [h]
  have h1 : deposit db (some s) a = .error .invalidAmount := by simp [deposit, hv]
  have h2 : withdraw db (some s) a = .error .invalidAmount := by simp [withdraw, hv]
  have h3 : transfer db (some s) a tid = .error .invalidAmount := by simp [transfer, hv]
  exact ⟨h1, h2, h3, by simp [applyOp, h1], by simp [applyOp, h2], by simp [applyOp, h3]⟩

/-- C6 witness: a NaN amount (e.g. `Number("abc")`) is rejected with
InvalidAmount by all three operations, with the store unchanged. -/
theorem invalid_amount_rejected_witness :
    deposit exDb (some aliceSession) .nan = .error .invalidAmount ∧
    withdraw exDb (some aliceSession) .nan = .error .invalidAmount ∧
    transfer exDb (some aliceSession) .nan 2 = .error .invalidAmount ∧
    applyOp exDb (.dep (some aliceSession) .nan) = exDb ∧
    applyOp exDb (.wd (some aliceSession) .nan) = exDb ∧
    applyOp exDb (.tf (some aliceSession) .nan 2) = exDb :=
  invalid_amount_rejected exDb aliceSession .nan 2 (Or.inl rfl)

/-- C8: once the process-wide failure counter has reached 3, every login
attempt returns LockedOut with the counter unchanged, the result does not
depend on the store or the submitted credentials (no store access), and all
attempts of any subsequent sequence are LockedOut; independently, any login
that returns success leaves the counter at 0. -/
theorem lockout_behavior (verify : String → String → Bool) (fails : Nat)
    (db db' : DB) (name pin name' pin' : String)
    (attempts : List (DB × String × String)) :
    (3 ≤ fails →
      login verify fails db name pin = (fails, .lockedOut) ∧
      login verify fails db name pin = login verify fails db' name' pin' ∧
      (runLogins verify fails attempts).2.all (fun r => r == .lockedOut) = true) ∧
    (∀ i n b, (login verify fails db name pin).2 = .success i n b →
      (login verify fails db name pin).1 = 0) := by
  constructor
  · intro h3
    have hlocked : ∀ (d : DB) (n p : String), login verify fails d n p = (fails, .lockedOut) := by
      intro d n p
      unfold login
      rw [if_pos h3]
    refine ⟨hlocked db name pin, by rw [hlocked, hlocked], ?_⟩
    induction attempts with
    | nil => rfl
    | cons hd tl ih =>
      obtain ⟨d, n, p⟩ := hd
      simp only [runLogins, hlocked d n p, List.all_cons]
      simpa using ih
  · intro i n b hsucc
    unfold login at hsucc ⊢
    by_cases h3 : 3 ≤ fails
    · rw [if_pos h3] at hsucc
      cases hsucc
    · rw [if_neg h3] at hsucc ⊢
      cases hsel : selectAccountsByName db name with
      | nil =>
        rw [hsel] at hsucc
        simp at hsucc
      | cons acct tl => simp [JSPromise.truthy]

/-- The head row returned by a by-id account query carries the queried id. -/
theorem filter_head_id (db : DB) (i : Nat) (acct : Account) (rs : List Account)
    (h : selectAccountsById db i = acct :: rs) : acct.id = i := by
  have hmem : acct ∈ selectAccountsById db i := by
    rw [h]
    exact List.mem_cons_self _ _
  have := (List.mem_filter.mp hmem).2
  simpa using this

/-- Inserting a transaction row leaves every by-id account query unchanged. -/
theorem selectAccountsById_insert (db : DB) (n : Nat) (t : TxType) (a : JSNum)
    (g : Option Nat) (i : Nat) :
    selectAccountsById (insertTransaction db n t a g).1 i = selectAccountsById db i := rfl

/-- Querying the updated id after a by-id balance update returns the same
rows with the new balance. -/
theorem select_update_self (db : DB) (i : Nat) (v : JSNum) :
    selectAccountsById (updateBalanceWhereId db i v) i =
      (selectAccountsById db i).map (fun a => { a with balance := v }) := by
  simp only [selectAccountsById, updateBalanceWhereId]
  induction db.accounts with
  | nil => rfl
  | cons a l ih =>
    cases hb : a.id == i with
    | true =>
      have hi : a.id = i := by simpa using hb
      simp at ih
      simp [List.filter_cons, hi, ih]
    | false =>
      have hi : ¬ a.id = i := by simpa using hb
      simp at ih
      simp [List.filter_cons, hi, ih]

/-- Querying a different id after a by-id balance update returns the
original rows. -/
theorem select_update_other (db : DB) (i j : Nat) (v : JSNum) (hne : i ≠ j) :
    selectAccountsById (updateBalanceWhereId db j v) i = selectAccountsById db i := by
  simp only [selectAccountsById, updateBalanceWhereId]
  induction db.accounts with
  | nil => rfl
  | cons a l ih =>
    cases hb : a.id == j with
    | true =>
      have hj : a.id = j := by simpa using hb
      have hbi : ¬ j = i := fun hh => hne hh.symm
      simp at ih
      simp [List.filter_cons, hj, hbi, ih]
    | false =>
      have hj : ¬ a.id = j := by simpa using hb
      simp at ih
      simp [List.filter_cons, hj, ih]

/-- C3 (amended): for every transfer that passes validation with a finite
amount and finite balances, IF the target account id differs from the
session account id, the sum of the sender's and receiver's balances is
conserved (sender debited by the amount, receiver credited by it); when the
target id equals the session id — a case the validation does not forbid —
conservation FAILS: both balances are read before any write, the sender
debit is overwritten by the receiver credit, and the single account ends at
its old balance plus the amount. -/
theorem transfer_conservation (db db' : DB) (s : Session) (q bs bt : ℚ) (tid : Nat)
    (sender target : Account) (rs rt : List Account)
    (hsel : selectAccountsById db s.id = sender :: rs)
    (htgt : selectAccountsById db tid = target :: rt)
    (hbs : sender.balance = .fin bs) (hbt : target.balance = .fin bt)
    (hok : transfer db (some s) (.fin q) tid = .ok db') :
    (s.id ≠ tid →
      balanceOf db' s.id = some (.fin (bs - q)) ∧
      balanceOf db' tid = some (.fin (bt + q)) ∧
      (bs - q) + (bt + q) = bs + bt) ∧
    (s.id = tid → balanceOf db' tid = some (.fin (bt + q))) := by
  obtain ⟨hv, t', rt', s', rs', htgt', hsel', hgt, hdbeq⟩ :=
    transfer_ok_inv db db' s (.fin q) tid hok
  rw [htgt] at htgt'
  rw [hsel] at hsel'
  injection htgt' with ht1 ht2
  injection hsel' with hs1 hs2
  subst ht1
  subst ht2
  subst hs1
  subst hs2
  have hsid : sender.id = s.id := filter_head_id db s.id sender rs hsel
  have htid : target.id = tid := filter_head_id db tid target rt htgt
  rw [hdbeq, hsid, htid, hbs, hbt]
  simp only [JSNum.sub, JSNum.add]
  constructor
  · intro hne
    refine ⟨?_, ?_, by ring⟩
    · simp only [balanceOf]
      rw [selectAccountsById_insert, select_update_other _ s.id tid _ hne,
        selectAccountsById_insert, select_update_self, hsel]
      simp
    · simp only [balanceOf]
      rw [selectAccountsById_insert, select_update_self, selectAccountsById_insert,
        select_update_other _ tid s.id _ (Ne.symm hne), htgt]
      simp
  · intro heq
    rw [heq]
    simp only [balanceOf]
    rw [selectAccountsById_insert, select_update_self, selectAccountsById_insert,
      select_update_self, htgt]
    simp

/-- C3 witness: alice (balance 100) transfers 30 to bob (balance 50, a
distinct account): alice ends at 70, bob at 80, and the summed balance is
conserved. -/
theorem transfer_conservation_witness :
    balanceOf exDbTransfer 1 = some (.fin (100 - 30)) ∧
    balanceOf exDbTransfer 2 = some (.fin (50 + 30)) ∧
    ((100 : ℚ) - 30) + (50 + 30) = 100 + 50 :=
  (transfer_conservation exDb exDbTransfer aliceSession 30 100 50 2
    ⟨1, "alice", "hash1", .fin 100⟩ ⟨2, "bob", "hash2", .fin 50⟩ [] []
    rfl rfl rfl rfl rfl).1 (by decide)

/-- An amount that passes the gate is +Infinity or a positive finite value. -/
theorem validAmount_cases (a : JSNum) (h : validAmount a = true) :
    a = .inf ∨ ∃ q : ℚ, a = .fin q ∧ 0 < q := by
  cases a with
  | nan => simp [validAmount, JSNum.isNaNb] at h
  | inf => exact Or.inl rfl
  | ninf => simp [validAmount, JSNum.isNaNb, JSNum.leZerob] at h
  | fin q =>
    refine Or.inr ⟨q, rfl, ?_⟩
    simp [validAmount, JSNum.isNaNb, JSNum.leZerob] at h
    exact h

/-- Adding a gate-passing amount to a non-negative balance keeps it
non-negative. -/
theorem add_not_negative (b a : JSNum) (hb : b.isNegativeb = false)
    (ha : validAmount a = true) : (b.add a).isNegativeb = false := by
  rcases validAmount_cases a ha with rfl | ⟨q, rfl, hq⟩
  · cases b <;> simp_all [JSNum.add, JSNum.isNegativeb]
  · cases b with
    | nan => rfl
    | inf => rfl
    | ninf => simp [JSNum.isNegativeb] at hb
    | fin p =>
      simp only [JSNum.isNegativeb, decide_eq_false_iff_not] at hb ⊢
      simp only [JSNum.add]
      simp only [JSNum.isNegativeb, decide_eq_false_iff_not]
      linarith

/-- Subtracting a gate-passing amount that did not exceed the balance keeps
the balance non-negative. -/
theorem sub_not_negative (b a : JSNum) (hb : b.isNegativeb = false)
    (ha : validAmount a = true) (hgt : a.gtb b = false) :
    (b.sub a).isNegativeb = false := by
  rcases validAmount_cases a ha with rfl | ⟨q, rfl, hq⟩
  · cases b with
    | nan => rfl
    | inf => rfl
    | ninf => simp [JSNum.isNegativeb] at hb
    | fin p => simp [JSNum.gtb] at hgt
  · cases b with
    | nan => rfl
    | inf => rfl
    | ninf => simp [JSNum.isNegativeb] at hb
    | fin p =>
      simp only [JSNum.gtb, decide_eq_false_iff_not] at hgt
      simp only [JSNum.isNegativeb, decide_eq_false_iff_not] at hb
      simp only [JSNum.sub, JSNum.isNegativeb, decide_eq_false_iff_not]
      linarith

/-- A balance-overwriting map with a non-negative new value preserves
all-balances-non-negative, whatever rows it selects. -/
theorem all_map_update (l : List Account) (p : Account → Bool) (v : JSNum)
    (hl : l.all (fun a => !a.balance.isNegativeb) = true) (hv : v.isNegativeb = false) :
    (l.map (fun a => if p a then { a with balance := v } else a)).all
      (fun a => !a.balance.isNegativeb) = true := by
  rw [List.all_eq_true] at hl ⊢
  intro a ha
  rw [List.mem_map] at ha
  obtain ⟨b, hb, rfl⟩ := ha
  by_cases h : p b = true
  · simp [h, hv]
  · simp only [Bool.not_eq_true] at h
    simp [h, hl b hb]

/-- Inserting a transaction row does not touch the accounts table. -/
theorem dbAllNotNeg_insert (db : DB) (n : Nat) (t : TxType) (a : JSNum) (g : Option Nat) :
    dbAllNotNeg (insertTransaction db n t a g).1 = dbAllNotNeg db := rfl

/-- The by-id balance update preserves all-balances-non-negative when the
written value is non-negative. -/
theorem dbAllNotNeg_update_id (db : DB) (i : Nat) (v : JSNum)
    (hdb : dbAllNotNeg db = true) (hv : v.isNegativeb = false) :
    dbAllNotNeg (updateBalanceWhereId db i v) = true :=
  all_map_update db.accounts (fun a => a.id == i) v hdb hv

/-- The by-name balance update preserves all-balances-non-negative when the
written value is non-negative. -/
theorem dbAllNotNeg_update_name (db : DB) (n : String) (v : JSNum)
    (hdb : dbAllNotNeg db = true) (hv : v.isNegativeb = false) :
    dbAllNotNeg (updateBalanceWhereName db n v) = true :=
  all_map_update db.accounts (fun a => a.name == n) v hdb hv

/-- The head row of a non-empty account query has a non-negative balance
whenever the whole store does. -/
theorem head_balance_not_negative (db : DB) (i : Nat) (acct : Account) (rs : List Account)
    (hdb : dbAllNotNeg db = true) (hsel : selectAccountsById db i = acct :: rs) :
    acct.balance.isNegativeb = false := by
  have hmem0 : acct ∈ selectAccountsById db i := by
    rw [hsel]
    exact List.mem_cons_self _ _
  have hmem : acct ∈ db.accounts := List.mem_of_mem_filter hmem0
  have := (List.all_eq_true.mp hdb) acct hmem
  simpa using this

/-- One engine operation preserves all-balances-non-negative. -/
theorem applyOp_not_negative (db : DB) (op : Op) (hdb : dbAllNotNeg db = true) :
    dbAllNotNeg (applyOp db op) = true := by
  cases op with
  | dep s a =>
    simp only [applyOp]
    cases hd : deposit db s a with
    | error e => exact hdb
    | ok db' =>
      show dbAllNotNeg db' = true
      cases s with
      | none => simp [deposit] at hd
      | some s' =>
        obtain ⟨hv, acct, rs, hsel, hdbeq⟩ := deposit_ok_inv db db' s' a hd
        rw [hdbeq, dbAllNotNeg_insert]
        exact dbAllNotNeg_update_id db s'.id _ hdb
          (add_not_negative acct.balance a (head_balance_not_negative db s'.id acct rs hdb hsel) hv)
  | wd s a =>
    simp only [applyOp]
    cases hd : withdraw db s a with
    | error e => exact hdb
    | ok db' =>
      show dbAllNotNeg db' = true
      cases s with
      | none => simp [withdraw] at hd
      | some s' =>
        obtain ⟨hv, acct, rs, hsel, hgt, hdbeq⟩ := withdraw_ok_inv db db' s' a hd
        rw [hdbeq, dbAllNotNeg_insert]
        exact dbAllNotNeg_update_name db acct.name _ hdb
          (sub_not_negative acct.balance a (head_balance_not_negative db s'.id acct rs hdb hsel) hv hgt)
  | tf s a tid =>
    simp only [applyOp]
    cases hd : transfer db s a tid with
    | error e => exact hdb
    | ok db' =>
      show dbAllNotNeg db' = true
      cases s with
      | none => simp [transfer] at hd
      | some s' =>
        obtain ⟨hv, target, rt, sender, rs, htgt, hsel, hgt, hdbeq⟩ :=
          transfer_ok_inv db db' s' a tid hd
        rw [hdbeq, dbAllNotNeg_insert]
        have h1 : dbAllNotNeg (updateBalanceWhereId db sender.id (sender.balance.sub a)) = true :=
          dbAllNotNeg_update_id db sender.id _ hdb
            (sub_not_negative sender.balance a
              (head_balance_not_negative db s'.id sender rs hdb hsel) hv hgt)
        refine dbAllNotNeg_update_id _ target.id _ ?_
          (add_not_negative target.balance a
            (head_balance_not_negative db tid target rt hdb htgt) hv)
        rw [dbAllNotNeg_insert]
        exact h1

/-- C4: starting from a store in which no balance is negative, no sequence
of engine operations (deposit, withdraw, transfer, under any sessions,
amounts and targets) ever produces a negative balance; since every prefix
of a sequence is itself a sequence, the store observed after each operation
satisfies the same bound. -/
theorem ops_never_negative (db : DB) (ops : List Op) (hdb : dbAllNotNeg db = true) :
    dbAllNotNeg (runOps db ops) = true := by
  induction ops generalizing db with
  | nil => exact hdb
  | cons op tl ih => exact ih (applyOp db op) (applyOp_not_negative db op hdb)

/-- C4 witness: running a deposit, a withdrawal and a transfer for alice
against `exDb` (all balances non-negative) leaves every balance
non-negative. -/
theorem ops_never_negative_witness : dbAllNotNeg (runOps exDb exOps) = true :=
  ops_never_negative exDb exOps (by decide)

/-- C8 witness: with the counter at 3, a login with alice's CORRECT PIN
still returns LockedOut with the counter unchanged, the result coincides
with a login against a different store and credentials, and two further
attempts with correct credentials both return LockedOut. -/
theorem lockout_behavior_witness :
    login exVerify 3 exDb "alice" "123456" = (3, .lockedOut) ∧
    login exVerify 3 exDb "alice" "123456" = login exVerify 3 exDbDup "john" "000000" ∧
    (runLogins exVerify 3 [(exDb, "alice", "123456"), (exDb, "alice", "123456")]).2.all
      (fun r => r == .lockedOut) = true :=
  (lockout_behavior exVerify 3 exDb exDbDup "alice" "123456" "john" "000000"
    [(exDb, "alice", "123456"), (exDb, "alice", "123456")]).1 (by decide)

end Atm
